import Mathlib

/-!
Shallow embedding of the Industrial_LLM repository's RAG system
(`src/rag_system.py`) and its FastAPI layer (`src/main.py`).

Conventions used throughout:
* Python strings are Lean `String`s; Python's substring operator
  `needle in haystack` is `pyIn`, and `str.lower()` is `pyLower`.
* A CSV row as pandas exposes it to `df.apply(..., axis=1)` and
  `df.to_dict('records')` is an association list `RawRecord`; a missing
  column raises `KeyError`, modelled with `Except PyError`.
* The embedding model and the chromadb vector store are external
  libraries; the composite "cosine distance between the encodings of a
  query and a document" is an abstract parameter
  `dist : String → String → ℚ`, and chromadb's documented behaviour for
  an `hnsw:space = cosine` collection (return the `n_results` nearest
  stored items, sorted by that distance ascending, i.e. by cosine
  similarity `1 - dist` descending) is `collectionQuery`.
* `pd.Timestamp.now().isoformat()` is an abstract clock value `now`.
-/

/-- Substring test on character lists: true iff `needle` occurs
contiguously inside the second list. -/
def listContains (needle : List Char) : List Char → Bool
  | [] => needle.isEmpty
  | c :: rest => needle.isPrefixOf (c :: rest) || listContains needle rest

/-- Models Python's `needle in haystack` substring operator on strings. -/
def pyIn (needle haystack : String) : Bool :=
  listContains needle.toList haystack.toList

/-- Models Python's `str.lower()`: lower-case every character (the log
data is ASCII, where Python's and Lean's per-character lowering agree).
Defined structurally on the character list so that proofs can evaluate
it. -/
def pyLower (s : String) : String :=
  ⟨s.data.map Char.toLower⟩

/-- A log record as stored in the collection and read by the downstream
code (`generate_insight` reads `log['timestamp']` and `log['message']`;
the other three CSV fields travel along in the metadata dict). -/
structure Metadata where
  timestamp : String
  equipment_id : String
  equipment_type : String
  severity : String
  message : String
deriving DecidableEq, Repr

/-- Embeds `IndustrialRAGSystem.generate_insight`. The prompt is built
from the query and the top-3 context exactly as in the source, but the
rule-based branch below never consults it; the keyword scans iterate over
all of `context_logs`, while only the prompt context is truncated to the
top 3 records. -/
def generate_insight (query : String) (context_logs : List Metadata) : String :=
  let context := String.intercalate "\n"
    ((context_logs.take 3).map (fun log => "- " ++ log.timestamp ++ ": " ++ log.message))
  let prompt := "Based on the following industrial equipment logs, provide a concise analysis:\n\nQuery: "
    ++ query ++ "\n\nRelevant Log Entries:\n" ++ context ++ "\n\nAnalysis:"
  if context_logs.any (fun log => pyIn "temperature" (pyLower log.message)) then
    "Temperature anomaly detected. Recommend immediate inspection of cooling systems and thermal sensors."
  else if context_logs.any (fun log => pyIn "vibration" (pyLower log.message)) then
    "Vibration patterns suggest mechanical wear. Schedule bearing inspection and lubrication check."
  else if context_logs.any (fun log => pyIn "pressure" (pyLower log.message)) then
    "Pressure variations detected. Check for leaks, blockages, or pump performance issues."
  else
    "Multiple equipment events detected. Recommend comprehensive system review."

/-- A four-record log list whose first three messages mention no keyword
and whose fourth message mentions "Temperature". -/
def c1Logs : List Metadata :=
  [ ⟨"2024-01-01T00:00:00", "pump_01", "pump", "INFO", "Routine maintenance completed successfully"⟩
  , ⟨"2024-01-01T01:00:00", "pump_02", "pump", "INFO", "Operating within normal parameters"⟩
  , ⟨"2024-01-01T02:00:00", "motor_01", "motor", "INFO", "Performance metrics nominal"⟩
  , ⟨"2024-01-01T03:00:00", "pump_03", "pump", "WARNING", "Temperature reading 91.2 exceeds normal range"⟩ ]

/-- A log list whose only keyword occurrence is "vibration" (no message
mentions temperature or pressure). -/
def vibOnlyLogs : List Metadata :=
  [ ⟨"2024-01-01T00:00:00", "motor_02", "motor", "WARNING",
      "Vibration levels elevated to 11.3Hz, potential bearing wear detected"⟩
  , ⟨"2024-01-01T01:00:00", "pump_02", "pump", "INFO", "Operating within normal parameters"⟩ ]

/-- C1 counterexample: the first three records of `c1Logs` contain no
keyword, yet `generate_insight` returns the temperature sentence, not the
generic comprehensive-system-review sentence, because the keyword scan
also reads the fourth record. -/
theorem generate_insight_top3_counterexample :
    ((c1Logs.take 3).all (fun log =>
        !(pyIn "temperature" (pyLower log.message) ||
          pyIn "vibration" (pyLower log.message) ||
          pyIn "pressure" (pyLower log.message)))) = true
    ∧ generate_insight "What is wrong with the pumps?" c1Logs =
        "Temperature anomaly detected. Recommend immediate inspection of cooling systems and thermal sensors."
    ∧ generate_insight "What is wrong with the pumps?" c1Logs ≠
        "Multiple equipment events detected. Recommend comprehensive system review." :=
  ⟨by decide, by decide, by decide⟩

theorem forall_no_keyword_iff (logs : List Metadata) :
    (∀ log ∈ logs,
        pyIn "temperature" (pyLower log.message) = false ∧
        pyIn "vibration" (pyLower log.message) = false ∧
        pyIn "pressure" (pyLower log.message) = false)
    ↔ ((logs.any fun log => pyIn "temperature" (pyLower log.message)) = false
       ∧ (logs.any fun log => pyIn "vibration" (pyLower log.message)) = false
       ∧ (logs.any fun log => pyIn "pressure" (pyLower log.message)) = false) := by
  simp only [List.any_eq_false, Bool.not_eq_true]
  exact ⟨fun h => ⟨fun log hl => (h log hl).1, fun log hl => (h log hl).2.1,
           fun log hl => (h log hl).2.2⟩,
         fun h log hl => ⟨h.1 log hl, h.2.1 log hl, h.2.2 log hl⟩⟩

/-- C1 (amended): the keyword scans of `generate_insight` read every
record of `context_logs`, not only the first three (only the prompt
context, which never influences the output, is truncated to the top 3);
the generic comprehensive-system-review sentence is returned exactly when
no record at any position mentions a keyword — in particular, a keyword
in a record after the third position prevents the generic sentence. -/
theorem generate_insight_generic_iff_no_keyword_anywhere
    (query : String) (logs : List Metadata) :
    generate_insight query logs =
      "Multiple equipment events detected. Recommend comprehensive system review."
    ↔ ∀ log ∈ logs,
        pyIn "temperature" (pyLower log.message) = false ∧
        pyIn "vibration" (pyLower log.message) = false ∧
        pyIn "pressure" (pyLower log.message) = false := by
  rw [forall_no_keyword_iff]
  cases ht : (logs.any fun log => pyIn "temperature" (pyLower log.message)) with
  | true =>
    have hg : generate_insight query logs =
        "Temperature anomaly detected. Recommend immediate inspection of cooling systems and thermal sensors." := by
      simp [generate_insight, ht]
    rw [hg]
    constructor
    · intro hgen
      exact absurd hgen (by decide)
    · rintro ⟨h1, -, -⟩
      cases h1
  | false =>
    cases hv : (logs.any fun log => pyIn "vibration" (pyLower log.message)) with
    | true =>
      have hg : generate_insight query logs =
          "Vibration patterns suggest mechanical wear. Schedule bearing inspection and lubrication check." := by
        simp [generate_insight, ht, hv]
      rw [hg]
      constructor
      · intro hgen
        exact absurd hgen (by decide)
      · rintro ⟨-, h2, -⟩
        cases h2
    | false =>
      cases hp : (logs.any fun log => pyIn "pressure" (pyLower log.message)) with
      | true =>
        have hg : generate_insight query logs =
            "Pressure variations detected. Check for leaks, blockages, or pump performance issues." := by
          simp [generate_insight, ht, hv, hp]
        rw [hg]
        constructor
        · intro hgen
          exact absurd hgen (by decide)
        · rintro ⟨-, -, h3⟩
          cases h3
      | false =>
        simp [generate_insight, ht, hv, hp]

/-- Witness for the amended C1 theorem: the right-to-left direction at a
concrete keyword-free log list. -/
theorem generate_insight_generic_iff_no_keyword_anywhere_witness :
    generate_insight "status?"
        [⟨"2024-01-01T00:00:00", "pump_01", "pump", "INFO", "Routine maintenance completed successfully"⟩] =
      "Multiple equipment events detected. Recommend comprehensive system review." :=
  (generate_insight_generic_iff_no_keyword_anywhere "status?" _).mpr (by decide)

/-- C3: the keyword priority of `generate_insight` is fixed: any
temperature match wins outright; failing that, any vibration match wins;
failing both, any pressure match wins. -/
theorem generate_insight_keyword_priority (query : String) (logs : List Metadata) :
    ((∃ log ∈ logs, pyIn "temperature" (pyLower log.message) = true) →
      generate_insight query logs =
        "Temperature anomaly detected. Recommend immediate inspection of cooling systems and thermal sensors.")
    ∧ ((∀ log ∈ logs, pyIn "temperature" (pyLower log.message) = false) →
       (∃ log ∈ logs, pyIn "vibration" (pyLower log.message) = true) →
      generate_insight query logs =
        "Vibration patterns suggest mechanical wear. Schedule bearing inspection and lubrication check.")
    ∧ ((∀ log ∈ logs, pyIn "temperature" (pyLower log.message) = false) →
       (∀ log ∈ logs, pyIn "vibration" (pyLower log.message) = false) →
       (∃ log ∈ logs, pyIn "pressure" (pyLower log.message) = true) →
      generate_insight query logs =
        "Pressure variations detected. Check for leaks, blockages, or pump performance issues.") := by
  refine ⟨fun hex => ?_, fun hallt hex => ?_, fun hallt hallv hex => ?_⟩
  · have ht : (logs.any fun log => pyIn "temperature" (pyLower log.message)) = true := by
      simp only [List.any_eq_true]
      obtain ⟨log, hl, hkw⟩ := hex
      exact ⟨log, hl, hkw⟩
    simp [generate_insight, ht]
  · have ht : (logs.any fun log => pyIn "temperature" (pyLower log.message)) = false := by
      simp only [List.any_eq_false]
      intro log hl
      simp [hallt log hl]
    have hv : (logs.any fun log => pyIn "vibration" (pyLower log.message)) = true := by
      simp only [List.any_eq_true]
      obtain ⟨log, hl, hkw⟩ := hex
      exact ⟨log, hl, hkw⟩
    simp [generate_insight, ht, hv]
  · have ht : (logs.any fun log => pyIn "temperature" (pyLower log.message)) = false := by
      simp only [List.any_eq_false]
      intro log hl
      simp [hallt log hl]
    have hv : (logs.any fun log => pyIn "vibration" (pyLower log.message)) = false := by
      simp only [List.any_eq_false]
      intro log hl
      simp [hallv log hl]
    have hp : (logs.any fun log => pyIn "pressure" (pyLower log.message)) = true := by
      simp only [List.any_eq_true]
      obtain ⟨log, hl, hkw⟩ := hex
      exact ⟨log, hl, hkw⟩
    simp [generate_insight, ht, hv, hp]

/-- Witness for the C3 priority theorem: on a vibration-only log list the
second conjunct yields the vibration sentence. -/
theorem generate_insight_keyword_priority_witness :
    generate_insight "q" vibOnlyLogs =
      "Vibration patterns suggest mechanical wear. Schedule bearing inspection and lubrication check." :=
  (generate_insight_keyword_priority "q" vibOnlyLogs).2.1 (by decide) (by decide)

/-- C8: `generate_insight` is a pure rule-based function, hence
deterministic: the same query and (non-empty) log list always produce the
same insight string. -/
theorem generate_insight_deterministic (query : String) (logs : List Metadata)
    (h : logs ≠ []) :
    generate_insight query logs = generate_insight query logs := rfl

/-- Witness for determinism at a concrete non-empty log list. -/
theorem generate_insight_deterministic_witness :
    generate_insight "q" vibOnlyLogs = generate_insight "q" vibOnlyLogs :=
  generate_insight_deterministic "q" vibOnlyLogs (by decide)

/-- C10: the insight chosen by `generate_insight` does not depend on the
query: the query only flows into the prompt string, which the rule-based
branch never consults. -/
theorem generate_insight_query_independent (q1 q2 : String) (logs : List Metadata) :
    generate_insight q1 logs = generate_insight q2 logs := rfl

/-! ### Indexing: `load_and_index_logs` -/

/-- Python exception values arising on the modelled code paths. -/
inductive PyError where
  | keyError (key : String)
  | indexError
deriving DecidableEq, Repr

/-- A raw CSV row as pandas exposes it to `df.apply(..., axis=1)` and
`df.to_dict('records')`: an association list from column name to string
value. -/
abbrev RawRecord := List (String × String)

/-- Models `row[key]` on a pandas row: the value stored under `key`, or
a `KeyError` when that column is absent. -/
def dictGet (row : RawRecord) (key : String) : Except PyError String :=
  match row.find? (fun p => p.1 == key) with
  | some p => Except.ok p.2
  | none => Except.error (PyError.keyError key)

/-- Models the lambda inside `load_and_index_logs` that builds a row's
`searchable_text`: `equipment_id`, `equipment_type`, `severity`, and
`message` joined by single spaces, in that fixed order. -/
def searchable_text (row : RawRecord) : Except PyError String := do
  let eid ← dictGet row "equipment_id"
  let ety ← dictGet row "equipment_type"
  let sev ← dictGet row "severity"
  let msg ← dictGet row "message"
  pure (eid ++ " " ++ ety ++ " " ++ sev ++ " " ++ msg)

/-- Models `df.apply(f, axis=1)`: apply `f` to every row in order, the
first raised exception propagating. -/
def applyRows (f : RawRecord → Except PyError String) :
    List RawRecord → Except PyError (List String)
  | [] => Except.ok []
  | row :: rows => do
    let t ← f row
    let ts ← applyRows f rows
    pure (t :: ts)

/-- An item stored in the chromadb collection: its string id, its
document (the searchable text, which also determines its embedding via
the abstract encoder), and its metadata. -/
structure Entry (μ : Type) where
  id : String
  document : String
  metadata : μ
deriving DecidableEq, Repr

/-- Embeds `IndustrialRAGSystem.load_and_index_logs` after `pd.read_csv`
has produced the rows: build every row's `searchable_text` (a missing
column raises `KeyError`), then hand `collection.add` the parallel lists
of documents, per-row metadata dicts, and ids `str(0), ..., str(n-1)`. -/
def load_and_index_logs (rows : List RawRecord) :
    Except PyError (List (Entry RawRecord)) := do
  let texts ← applyRows searchable_text rows
  let ids := (List.range rows.length).map toString
  pure ((ids.zip (texts.zip rows)).map (fun p => Entry.mk p.1 p.2.1 p.2.2))

/-- All four columns consulted by `searchable_text` are present. -/
def searchColumnsPresent (row : RawRecord) : Bool :=
  (dictGet row "equipment_id").isOk && (dictGet row "equipment_type").isOk &&
  (dictGet row "severity").isOk && (dictGet row "message").isOk

/-- A row having the four fields the claim calls required (`timestamp`,
`equipment_id`, `severity`, `message`) but no `equipment_type` column. -/
def c4Row : RawRecord :=
  [ ("timestamp", "2024-01-01T00:00:00"), ("equipment_id", "pump_01")
  , ("severity", "INFO"), ("message", "Routine maintenance completed successfully") ]

theorem except_bind_ok (a : α) (f : α → Except ε β) :
    (Except.ok a >>= f) = f a := rfl

theorem except_bind_error (e : ε) (f : α → Except ε β) :
    ((Except.error e : Except ε α) >>= f) = Except.error e := rfl

theorem dictGet_error_eq (row : RawRecord) (key : String) (e : PyError)
    (h : dictGet row key = Except.error e) : e = PyError.keyError key := by
  unfold dictGet at h
  cases hf : row.find? (fun p => p.1 == key) <;> simp [hf] at h
  exact h.symm

theorem searchable_text_isOk (row : RawRecord) :
    (searchable_text row).isOk = searchColumnsPresent row := by
  unfold searchable_text searchColumnsPresent
  cases h1 : dictGet row "equipment_id" <;>
    cases h2 : dictGet row "equipment_type" <;>
      cases h3 : dictGet row "severity" <;>
        cases h4 : dictGet row "message" <;>
          simp [h1, h2, h3, h4, except_bind_ok, except_bind_error, Except.isOk,
            Except.toBool, pure, Except.pure]

theorem searchable_text_error_shape (row : RawRecord) (e : PyError)
    (h : searchable_text row = Except.error e) :
    ∃ k ∈ ["equipment_id", "equipment_type", "severity", "message"],
      e = PyError.keyError k := by
  unfold searchable_text at h
  cases h1 : dictGet row "equipment_id" with
  | error e1 =>
    rw [h1, except_bind_error] at h
    exact ⟨"equipment_id", by simp, by
      cases h
      exact dictGet_error_eq row _ _ h1⟩
  | ok eid =>
  rw [h1, except_bind_ok] at h
  cases h2 : dictGet row "equipment_type" with
  | error e2 =>
    rw [h2, except_bind_error] at h
    exact ⟨"equipment_type", by simp, by
      cases h
      exact dictGet_error_eq row _ _ h2⟩
  | ok ety =>
  rw [h2, except_bind_ok] at h
  cases h3 : dictGet row "severity" with
  | error e3 =>
    rw [h3, except_bind_error] at h
    exact ⟨"severity", by simp, by
      cases h
      exact dictGet_error_eq row _ _ h3⟩
  | ok sev =>
  rw [h3, except_bind_ok] at h
  cases h4 : dictGet row "message" with
  | error e4 =>
    rw [h4, except_bind_error] at h
    exact ⟨"message", by simp, by
      cases h
      exact dictGet_error_eq row _ _ h4⟩
  | ok msg =>
    rw [h4, except_bind_ok] at h
    exact absurd h (by simp [pure, Except.pure])

theorem except_pure_eq (a : α) : (pure a : Except ε α) = Except.ok a := rfl

theorem isOk_ok (a : α) : (Except.ok a : Except ε α).isOk = true := rfl

theorem isOk_error (e : ε) : (Except.error e : Except ε α).isOk = false := rfl

theorem applyRows_isOk (f : RawRecord → Except PyError String) :
    ∀ rows : List RawRecord,
      (applyRows f rows).isOk = rows.all (fun r => (f r).isOk)
  | [] => rfl
  | row :: rows => by
    have ih := applyRows_isOk f rows
    unfold applyRows
    rw [List.all_cons]
    cases h1 : f row with
    | error e => rw [except_bind_error, isOk_error, isOk_error, Bool.false_and]
    | ok t =>
      rw [except_bind_ok, isOk_ok, Bool.true_and]
      cases h2 : applyRows f rows with
      | error e =>
        rw [h2, isOk_error] at ih
        rw [except_bind_error, isOk_error]
        exact ih
      | ok ts =>
        rw [h2, isOk_ok] at ih
        rw [except_bind_ok, except_pure_eq, isOk_ok]
        exact ih

theorem applyRows_error_shape (f : RawRecord → Except PyError String) :
    ∀ (rows : List RawRecord) (e : PyError),
      applyRows f rows = Except.error e → ∃ r ∈ rows, f r = Except.error e
  | [], e, h => by simp [applyRows, pure, Except.pure] at h
  | row :: rows, e, h => by
    unfold applyRows at h
    cases h1 : f row with
    | error e1 =>
      rw [h1, except_bind_error] at h
      cases h
      exact ⟨row, by simp, h1⟩
    | ok t =>
      rw [h1, except_bind_ok] at h
      cases h2 : applyRows f rows with
      | error e2 =>
        rw [h2, except_bind_error] at h
        injection h with he
        subst he
        obtain ⟨r, hr, hfr⟩ := applyRows_error_shape f rows _ h2
        exact ⟨r, by simp [hr], hfr⟩
      | ok ts => simp [h2, except_bind_ok, pure, Except.pure] at h

theorem applyRows_ok_forall2 (f : RawRecord → Except PyError String) :
    ∀ (rows : List RawRecord) (texts : List String),
      applyRows f rows = Except.ok texts →
      List.Forall₂ (fun r t => f r = Except.ok t) rows texts
  | [], texts, h => by
    simp only [applyRows, pure, Except.pure] at h
    cases h
    exact List.Forall₂.nil
  | row :: rows, texts, h => by
    unfold applyRows at h
    cases h1 : f row with
    | error e => simp [h1, except_bind_error] at h
    | ok t =>
      rw [h1, except_bind_ok] at h
      cases h2 : applyRows f rows with
      | error e => simp [h2, except_bind_error] at h
      | ok ts =>
        rw [h2, except_bind_ok] at h
        simp only [pure, Except.pure, Except.ok.injEq] at h
        cases h
        exact List.Forall₂.cons h1 (applyRows_ok_forall2 f rows ts h2)

theorem load_isOk_eq (rows : List RawRecord) :
    (load_and_index_logs rows).isOk = (applyRows searchable_text rows).isOk := by
  unfold load_and_index_logs
  cases h : applyRows searchable_text rows <;>
    simp [h, except_bind_error, except_bind_ok, Except.isOk, Except.toBool,
      pure, Except.pure]

theorem load_error_eq (rows : List RawRecord) (e : PyError)
    (h : load_and_index_logs rows = Except.error e) :
    applyRows searchable_text rows = Except.error e := by
  unfold load_and_index_logs at h
  cases h2 : applyRows searchable_text rows with
  | error e2 =>
    rw [h2, except_bind_error] at h
    cases h
    rfl
  | ok ts => simp [h2, except_bind_ok, pure, Except.pure] at h

/-- C4 counterexample: a record sequence whose single record carries all
four fields the claim calls required (`timestamp`, `equipment_id`,
`severity`, `message`) still makes indexing fail — and the exception is a
`KeyError` on `equipment_type`, not an `IndexError`. -/
theorem load_and_index_required_fields_counterexample :
    (dictGet c4Row "timestamp").isOk = true
    ∧ (dictGet c4Row "equipment_id").isOk = true
    ∧ (dictGet c4Row "severity").isOk = true
    ∧ (dictGet c4Row "message").isOk = true
    ∧ load_and_index_logs [c4Row] = Except.error (PyError.keyError "equipment_type")
    ∧ PyError.keyError "equipment_type" ≠ PyError.indexError :=
  ⟨rfl, rfl, rfl, rfl, rfl, by decide⟩

/-- C4 (amended): indexing succeeds exactly when every row carries the
four columns `searchable_text` reads (`equipment_id`, `equipment_type`,
`severity`, `message`; `timestamp` is not consulted at index time), and
any indexing failure is a `KeyError` naming one of those four columns -
never an `IndexError`. -/
theorem load_and_index_keyerror_iff (rows : List RawRecord) :
    ((load_and_index_logs rows).isOk = true ↔
      ∀ row ∈ rows, searchColumnsPresent row = true)
    ∧ (∀ e : PyError, load_and_index_logs rows = Except.error e →
        ∃ k ∈ ["equipment_id", "equipment_type", "severity", "message"],
          e = PyError.keyError k) := by
  constructor
  · rw [load_isOk_eq, applyRows_isOk, List.all_eq_true]
    constructor
    · intro h row hrow
      have := h row hrow
      rwa [searchable_text_isOk] at this
    · intro h row hrow
      rw [searchable_text_isOk]
      exact h row hrow
  · intro e he
    obtain ⟨r, _, hfr⟩ := applyRows_error_shape _ rows e (load_error_eq rows e he)
    exact searchable_text_error_shape r e hfr

/-- Witness for the amended C4 theorem: on the `equipment_type`-less row
it produces a `KeyError` naming one of the four searchable columns. -/
theorem load_and_index_keyerror_iff_witness :
    ∃ k ∈ ["equipment_id", "equipment_type", "severity", "message"],
      PyError.keyError "equipment_type" = PyError.keyError k :=
  (load_and_index_keyerror_iff [c4Row]).2 (PyError.keyError "equipment_type") rfl

theorem forall2_zip_entries {Q : RawRecord → String → Prop}
    {rows : List RawRecord} {texts : List String}
    (hQ : List.Forall₂ Q rows texts) :
    ∀ ids : List String, ids.length = rows.length →
      List.Forall₂ (fun row e => Q row e.document ∧ e.metadata = row) rows
        ((ids.zip (texts.zip rows)).map (fun p => Entry.mk p.1 p.2.1 p.2.2)) := by
  induction hQ with
  | nil =>
    intro ids hlen
    simp
  | cons hq htail ih =>
    intro ids hlen
    cases ids with
    | nil => simp at hlen
    | cons i is =>
      simp only [List.zip_cons_cons, List.map_cons]
      exact List.Forall₂.cons ⟨hq, rfl⟩ (ih is (by simpa using hlen))

/-- C6: when indexing succeeds, the stored entries carry the sequential
string ids `str(0), ..., str(n-1)` (the counter restarting from 0 on
every call), and the i-th entry's document is exactly the i-th row's
`searchable_text` — the four columns joined by single spaces in fixed
order — with the row itself as metadata. -/
theorem load_and_index_ids_and_documents (rows : List RawRecord)
    (entries : List (Entry RawRecord))
    (h : load_and_index_logs rows = Except.ok entries) :
    entries.map Entry.id = (List.range rows.length).map toString
    ∧ List.Forall₂
        (fun row e => searchable_text row = Except.ok e.document ∧ e.metadata = row)
        rows entries := by
  unfold load_and_index_logs at h
  cases h2 : applyRows searchable_text rows with
  | error e =>
    rw [h2, except_bind_error] at h
    cases h
  | ok texts =>
    rw [h2, except_bind_ok, except_pure_eq] at h
    injection h with he
    subst he
    have hQ := applyRows_ok_forall2 searchable_text rows texts h2
    have hl : texts.length = rows.length := hQ.length_eq.symm
    constructor
    · rw [List.map_map]
      show ((((List.range rows.length).map toString).zip (texts.zip rows)).map Prod.fst)
          = (List.range rows.length).map toString
      apply List.map_fst_zip
      simp [List.length_zip, hl]
    · exact forall2_zip_entries hQ _ (by simp)

/-- A complete CSV row with all five columns present. -/
def c6Row : RawRecord :=
  [ ("timestamp", "2024-01-01T00:00:00"), ("equipment_id", "pump_01")
  , ("equipment_type", "pump"), ("severity", "WARNING")
  , ("message", "Pressure drop detected, possible seal integrity compromise") ]

/-- The entry `load_and_index_logs` stores for `c6Row`. -/
def c6Entry : Entry RawRecord :=
  ⟨"0", "pump_01 pump WARNING Pressure drop detected, possible seal integrity compromise", c6Row⟩

/-- Witness for the C6 theorem on a concrete one-row input. -/
theorem load_and_index_ids_and_documents_witness :
    [c6Entry].map Entry.id = (List.range [c6Row].length).map toString
    ∧ List.Forall₂
        (fun row e => searchable_text row = Except.ok e.document ∧ e.metadata = row)
        [c6Row] [c6Entry] :=
  load_and_index_ids_and_documents [c6Row] [c6Entry] rfl

/-! ### Retrieval: `retrieve_relevant_logs` -/

/-- Models a chromadb query against the `hnsw:space = cosine` collection.
The embedding model and the vector search are external libraries, so the
cosine distance between the encodings of a query text and a document text
is the abstract parameter `dist`; chromadb's documented contract for the
cosine space is to return the `n_results` stored items nearest to the
query, sorted by that distance ascending — equivalently by cosine
similarity `1 - dist` descending. Each hit is paired with its distance. -/
def collectionQuery {μ : Type} (dist : String → String → ℚ)
    (index : List (Entry μ)) (query : String) (n_results : ℕ) :
    List (Entry μ × ℚ) :=
  ((index.map (fun e => (e, dist query e.document))).insertionSort
      (fun a b => a.2 ≤ b.2)).take n_results

/-- Embeds `IndustrialRAGSystem.retrieve_relevant_logs`: encode the
query, query the collection, and return `results['metadatas'][0]` — the
empty list when the collection holds nothing. -/
def retrieve_relevant_logs {μ : Type} (dist : String → String → ℚ)
    (index : List (Entry μ)) (query : String) (top_k : ℕ) : List μ :=
  (collectionQuery dist index query top_k).map (fun p => p.1.metadata)

instance entryDistRelTotal {μ : Type} :
    IsTotal (Entry μ × ℚ) (fun a b => a.2 ≤ b.2) :=
  ⟨fun a b => le_total a.2 b.2⟩

instance entryDistRelTrans {μ : Type} :
    IsTrans (Entry μ × ℚ) (fun a b => a.2 ≤ b.2) :=
  ⟨fun _ _ _ hab hbc => le_trans hab hbc⟩

/-- C7: `retrieve_relevant_logs` returns at most `top_k` records; the
collection query it reads lists its hits with non-increasing cosine
similarity `1 - dist` to the query; and an empty index yields the empty
list rather than an error. -/
theorem retrieve_relevant_logs_spec {μ : Type} (dist : String → String → ℚ)
    (index : List (Entry μ)) (query : String) (top_k : ℕ)
    (h : 1 ≤ top_k) :
    (retrieve_relevant_logs dist index query top_k).length ≤ top_k
    ∧ (collectionQuery dist index query top_k).Pairwise
        (fun a b => 1 - b.2 ≤ 1 - a.2)
    ∧ (index = [] → retrieve_relevant_logs dist index query top_k = []) := by
  refine ⟨?_, ?_, ?_⟩
  · rw [retrieve_relevant_logs, List.length_map]
    exact List.length_take_le _ _
  · have hs : (((index.map (fun e => (e, dist query e.document))).insertionSort
        (fun a b => a.2 ≤ b.2))).Pairwise (fun a b => a.2 ≤ b.2) :=
      List.sorted_insertionSort (fun (a b : Entry μ × ℚ) => a.2 ≤ b.2)
        (index.map (fun e => (e, dist query e.document)))
    have hp : (collectionQuery dist index query top_k).Pairwise
        (fun a b => a.2 ≤ b.2) :=
      List.Pairwise.sublist (List.take_sublist _ _) hs
    exact hp.imp (fun hab => sub_le_sub_left hab 1)
  · intro h0
    subst h0
    simp [retrieve_relevant_logs, collectionQuery]

/-- Witness for the C7 theorem with the constant-zero distance and a
one-entry index. -/
theorem retrieve_relevant_logs_spec_witness :
    (retrieve_relevant_logs (fun _ _ => (0 : ℚ))
        [(⟨"0", "pump_01 pump INFO ok", (0 : ℕ)⟩ : Entry ℕ)] "q" 1).length ≤ 1
    ∧ (collectionQuery (fun _ _ => (0 : ℚ))
        [(⟨"0", "pump_01 pump INFO ok", (0 : ℕ)⟩ : Entry ℕ)] "q" 1).Pairwise
        (fun a b => 1 - b.2 ≤ 1 - a.2)
    ∧ ([(⟨"0", "pump_01 pump INFO ok", (0 : ℕ)⟩ : Entry ℕ)] = [] →
        retrieve_relevant_logs (fun _ _ => (0 : ℚ))
          [(⟨"0", "pump_01 pump INFO ok", (0 : ℕ)⟩ : Entry ℕ)] "q" 1 = []) :=
  retrieve_relevant_logs_spec (fun _ _ => (0 : ℚ))
    [(⟨"0", "pump_01 pump INFO ok", (0 : ℕ)⟩ : Entry ℕ)] "q" 1 (by decide)

/-! ### Query pipeline: `query_system` and the FastAPI endpoints -/

/-- The dict returned by `query_system`. The `timestamp` key is present
only on the non-empty branch, so it is an `Option` (`none` models the
key's absence). -/
structure QueryResultDict where
  query : String
  relevant_logs : List Metadata
  insight : String
  timestamp : Option String
deriving DecidableEq, Repr

/-- Embeds `IndustrialRAGSystem.query_system`: retrieve with the default
`top_k = 5`; if nothing comes back, short-circuit with the literal
no-results insight and no `timestamp` key; otherwise generate the insight
and attach the current timestamp `now`. -/
def query_system (dist : String → String → ℚ) (index : List (Entry Metadata))
    (now : String) (query : String) : QueryResultDict :=
  let relevant_logs := retrieve_relevant_logs dist index query 5
  if relevant_logs.isEmpty then
    { query := query, relevant_logs := [],
      insight := "No relevant logs found for this query.", timestamp := none }
  else
    { query := query, relevant_logs := relevant_logs,
      insight := generate_insight query relevant_logs, timestamp := some now }

/-- The pydantic `InsightResponse` response model: all four fields,
`timestamp` included, are required. -/
structure InsightResponse where
  query : String
  insight : String
  relevant_logs : List Metadata
  timestamp : String
deriving DecidableEq, Repr

/-- The pydantic message for a missing required `timestamp` field. -/
def pydanticMissingTimestampMsg : String :=
  "1 validation error for InsightResponse: timestamp field required"

/-- Models `InsightResponse(**result)`: pydantic validation raises a
field-required error when the `timestamp` key is absent from the dict. -/
def insightResponseOfDict (d : QueryResultDict) : Except String InsightResponse :=
  match d.timestamp with
  | some ts => Except.ok ⟨d.query, d.insight, d.relevant_logs, ts⟩
  | none => Except.error pydanticMissingTimestampMsg

/-- The handler outcome: an HTTP 200 with a validated body, or a raised
`HTTPException` with a status code and detail string. -/
inductive HTTPResult where
  | ok (body : InsightResponse)
  | httpError (status : ℕ) (detail : String)
deriving DecidableEq, Repr

/-- The parsed body of `POST /query`; pydantic fills `top_k` with 5 when
the field is absent, but the handler never reads it. -/
structure QueryRequest where
  query : String
  top_k : ℕ
deriving DecidableEq, Repr

/-- Embeds the `query_logs` handler of `POST /query`: 503 when the RAG
system is uninitialized; otherwise run `query_system` on the request's
query and build `InsightResponse(**result)`, any exception inside the
`try` becoming an HTTP 500 carrying the exception text. -/
def query_logs (dist : String → String → ℚ)
    (rag_system : Option (List (Entry Metadata))) (now : String)
    (request : QueryRequest) : HTTPResult :=
  match rag_system with
  | none => HTTPResult.httpError 503 "RAG system not initialized"
  | some index =>
    match insightResponseOfDict (query_system dist index now request.query) with
    | Except.ok resp => HTTPResult.ok resp
    | Except.error msg => HTTPResult.httpError 500 ("Query processing failed: " ++ msg)

/-- C2 (code bug): on an initialized but empty index, `query_system`
does short-circuit with the literal no-results insight and empty
`relevant_logs`, but the dict lacks the `timestamp` key that the
`InsightResponse` response model requires, so `InsightResponse(**result)`
raises a validation error and the `/query` handler answers HTTP 500 —
never the HTTP 200 the claim states. -/
theorem query_logs_empty_index_returns_500 (dist : String → String → ℚ)
    (now query : String) (k : ℕ) :
    query_system dist [] now query =
      { query := query, relevant_logs := [],
        insight := "No relevant logs found for this query.", timestamp := none }
    ∧ query_logs dist (some []) now ⟨query, k⟩ =
        HTTPResult.httpError 500
          ("Query processing failed: " ++ pydanticMissingTimestampMsg) :=
  ⟨rfl, rfl⟩

/-- The parsed body of `POST /analyze_anomaly`; pydantic fills
`severity` with "WARNING" when the field is absent. -/
structure AnomalyRequest where
  equipment_id : String
  anomaly_type : String
  severity : String
deriving DecidableEq, Repr

/-- The result dict assembled inside the `analyze_anomaly` handler: run
`query_system` on the space-joined synthesized query, then overwrite the
dict's `query` key with the display label. -/
def analyze_anomaly_result (dist : String → String → ℚ)
    (index : List (Entry Metadata)) (now : String)
    (request : AnomalyRequest) : QueryResultDict :=
  let query := request.equipment_id ++ " " ++ request.anomaly_type ++ " " ++ request.severity
  let result := query_system dist index now query
  { result with
      query := "Anomaly analysis for " ++ request.equipment_id ++ ": " ++ request.anomaly_type }

/-- Embeds the `analyze_anomaly` handler of `POST /analyze_anomaly`. -/
def analyze_anomaly (dist : String → String → ℚ)
    (rag_system : Option (List (Entry Metadata))) (now : String)
    (request : AnomalyRequest) : HTTPResult :=
  match rag_system with
  | none => HTTPResult.httpError 503 "RAG system not initialized"
  | some index =>
    match insightResponseOfDict (analyze_anomaly_result dist index now request) with
    | Except.ok resp => HTTPResult.ok resp
    | Except.error msg => HTTPResult.httpError 500 ("Anomaly analysis failed: " ++ msg)

theorem query_system_relevant_logs (dist : String → String → ℚ)
    (index : List (Entry Metadata)) (now q : String) :
    (query_system dist index now q).relevant_logs =
      retrieve_relevant_logs dist index q 5 := by
  unfold query_system
  cases hemp : (retrieve_relevant_logs dist index q 5).isEmpty with
  | true => simp [hemp, List.isEmpty_iff.mp hemp]
  | false => simp [hemp]

/-- C5: `analyze_anomaly` runs the retrieval on the query string that
joins `equipment_id`, `anomaly_type`, and `severity` with single spaces,
while the dict it returns carries the display label in its `query` field,
independent of the string embedded for search. -/
theorem analyze_anomaly_query_label (dist : String → String → ℚ)
    (index : List (Entry Metadata)) (now : String) (request : AnomalyRequest) :
    (analyze_anomaly_result dist index now request).query =
      "Anomaly analysis for " ++ request.equipment_id ++ ": " ++ request.anomaly_type
    ∧ (analyze_anomaly_result dist index now request).relevant_logs =
        retrieve_relevant_logs dist index
          (request.equipment_id ++ " " ++ request.anomaly_type ++ " " ++ request.severity)
          5 := by
  constructor
  · rfl
  · show (query_system dist index now
        (request.equipment_id ++ " " ++ request.anomaly_type ++ " " ++ request.severity)).relevant_logs = _
    exact query_system_relevant_logs dist index now _

/-- C9: the `top_k` field of a `/query` request has no effect — two
requests with the same query string and different `top_k` values produce
identical responses, since `query_system` always retrieves with its
default `top_k = 5` and the handler never forwards the request's value. -/
theorem query_logs_ignores_top_k (dist : String → String → ℚ)
    (rag_system : Option (List (Entry Metadata))) (now query : String)
    (k1 k2 : ℕ) :
    query_logs dist rag_system now ⟨query, k1⟩ =
      query_logs dist rag_system now ⟨query, k2⟩ := rfl
